import Mathlib

/-!
Shallow embedding of `server/controllers/coursePurchase.controller.js`
(course-purchase checkout handling: checkout-session creation, Stripe
webhook dispatch, purchase-status queries).

Modelling conventions:
* Mongo documents become Lean structures; each collection is a `List`.
* JS numbers carrying money are modelled as exact rationals `ℚ`
  (`Number.prototype.toFixed(2)` becomes rounding to a multiple of 1/100).
* `await`ed database state is passed explicitly; a handler that may be
  entered with a thrown exception takes an `Except` and a handler that may
  send no response returns an `Option` response.
* The Stripe client is a function parameter (session creation), and its
  webhook signature primitives are parametrised by an abstract `sign`
  function shared by `generateTestHeaderString` and `constructEvent`.
-/

/-- One `CoursePurchase` document: `{courseId, userId, amount, status, paymentId}`.
`paymentId` is absent until the checkout-session success path assigns it. -/
structure Purchase where
  courseId : Nat
  userId : Nat
  amount : ℚ
  status : String
  paymentId : Option String
deriving DecidableEq

/-- One `Course` document, with the fields the controller touches. -/
structure Course where
  id : Nat
  courseTitle : String
  courseThumbnail : String
  coursePrice : ℚ
  lectures : List Nat
  enrolledStudents : List Nat
  creator : Nat
deriving DecidableEq

/-- One `Lecture` document: only `isPreviewFree` is touched here. -/
structure Lecture where
  id : Nat
  isPreviewFree : Bool
deriving DecidableEq

/-- One `User` document: only `enrolledCourses` is touched here. -/
structure User where
  id : Nat
  enrolledCourses : List Nat
deriving DecidableEq

/-- The database state the controller reads and writes. -/
structure DB where
  purchases : List Purchase
  courses : List Course
  lectures : List Lecture
  users : List User
deriving DecidableEq

/-- JS `x.toFixed(2)` on a non-negative amount, in exact arithmetic:
round to the nearest multiple of 1/100 (ties away from zero for the
positive prices at stake, matching `round`). -/
def toFixed2 (x : ℚ) : ℚ := ((round (x * 100) : ℤ) : ℚ) / 100

/-- `const convertedPrice = (course.coursePrice / 3.32).toFixed(2) * 100;`
(3.32 is the literal rational 332/100). -/
def convertedPrice (price : ℚ) : ℚ := toFixed2 (price / (332 / 100)) * 100

/-- The parameters `createCheckoutSession` passes to
`stripe.checkout.sessions.create` (line-item metadata, redirect targets,
shipping countries). -/
structure CheckoutParams where
  currency : String
  name : String
  images : List String
  unit_amount : ℚ
  quantity : Nat
  mode : String
  success_url : String
  cancel_url : String
  metadataCourseId : Nat
  metadataUserId : Nat
  allowed_countries : List String
deriving DecidableEq

/-- The argument object built for `stripe.checkout.sessions.create`. -/
def sessionParams (course : Course) (courseId userId : Nat) : CheckoutParams :=
  { currency := "eur"
    name := course.courseTitle
    images := [course.courseThumbnail]
    unit_amount := convertedPrice course.coursePrice
    quantity := 1
    mode := "payment"
    success_url := "http://localhost:5173/course-progress/" ++ toString courseId
    cancel_url := "http://localhost:5173/course-detail/" ++ toString courseId
    metadataCourseId := courseId
    metadataUserId := userId
    allowed_countries := ["FR", "US", "IT", "DE"] }

/-- What the provider returns for a created checkout session: a session id
and possibly a redirect URL (`session.url` may be absent). -/
structure StripeSession where
  id : String
  url : Option String
deriving DecidableEq

/-- `createCheckoutSession`: look up the course (404 when absent), build the
pending purchase record, call the provider, and either fail with 400 when no
URL came back (persisting nothing) or persist the record with the provider's
session id and answer 200 with the URL.  Result: HTTP status, the returned
URL when any, and the purchase collection after the handler ran. -/
def createCheckoutSession (db : DB) (userId courseId : Nat)
    (provider : CheckoutParams → StripeSession) :
    Nat × Option String × List Purchase :=
  match db.courses.find? (fun c => c.id == courseId) with
  | none => (404, none, db.purchases)
  | some course =>
    let newPurchase : Purchase :=
      { courseId := courseId, userId := userId, amount := course.coursePrice,
        status := "pending", paymentId := none }
    let session := provider (sessionParams course courseId userId)
    match session.url with
    | none => (400, none, db.purchases)
    | some url =>
      (200, some url,
        db.purchases ++ [{ newPurchase with paymentId := some session.id }])

/-! Webhook side: the `stripeWebhook` switch and the Mongo operations it
performs, each modelled on lists. -/

/-- `event.data.object` of a checkout-session event: the session id and the
(possibly absent) `amount_total` in minor units. -/
structure SessionObj where
  id : String
  amount_total : Option Int
deriving DecidableEq

/-- A verified webhook event: its `type` string and its payload object. -/
structure Event where
  type : String
  data : SessionObj
deriving DecidableEq

/-- Mongo `$addToSet`: append the element unless it is already present. -/
def addToSet (l : List Nat) (x : Nat) : List Nat :=
  if x ∈ l then l else l ++ [x]

/-- `purchase.save()` after `findOne({paymentId})`: write the updated document
back over the first purchase whose `paymentId` matches. -/
def replaceFirst (ps : List Purchase) (pid : String) (p' : Purchase) : List Purchase :=
  match ps with
  | [] => []
  | p :: rest => if p.paymentId == some pid then p' :: rest else p :: replaceFirst rest pid p'

/-- `CoursePurchase.findOneAndDelete({paymentId})`: drop the first purchase
whose `paymentId` matches; keep the list unchanged when none does. -/
def deleteFirst (ps : List Purchase) (pid : String) : List Purchase :=
  match ps with
  | [] => []
  | p :: rest => if p.paymentId == some pid then rest else p :: deleteFirst rest pid

/-- `Lecture.updateMany({_id: {$in: ids}}, {$set: {isPreviewFree: true}})`. -/
def setLecturesFree (ls : List Lecture) (ids : List Nat) : List Lecture :=
  ls.map fun l => if l.id ∈ ids then { l with isPreviewFree := true } else l

/-- `User.findByIdAndUpdate(uid, {$addToSet: {enrolledCourses: cid}})`;
`_id` is a key, so updating every matching document coincides with updating
the one document of that id. -/
def enrollUser (us : List User) (uid cid : Nat) : List User :=
  us.map fun u => if u.id == uid then { u with enrolledCourses := addToSet u.enrolledCourses cid } else u

/-- `Course.findByIdAndUpdate(cid, {$addToSet: {enrolledStudents: uid}})`. -/
def enrollStudent (cs : List Course) (cid uid : Nat) : List Course :=
  cs.map fun c => if c.id == cid then { c with enrolledStudents := addToSet c.enrolledStudents uid } else c

/-- `if (session.amount_total) { purchase.amount = session.amount_total / 100; }`:
a present, non-zero (truthy) total overwrites the amount with total/100;
an absent or zero total leaves the stored amount alone. -/
def completedAmount (amount_total : Option Int) (old : ℚ) : ℚ :=
  match amount_total with
  | some t => if t = 0 then old else (t : ℚ) / 100
  | none => old

/-- The `"checkout.session.completed"` case of the webhook switch: find the
purchase by session id (404 when absent), overwrite amount/status, flip the
course's lectures visible when the populated course has any, save the
purchase, then `$addToSet` the enrollments.  When the referenced course does
not exist, `purchase.courseId` populates to `null`: the lecture update is
skipped by its guard, the purchase is still saved, and the unguarded
`purchase.courseId._id` read throws, which the surrounding catch turns into
a 500 — so only the purchase write survives on that path. -/
def handleCompleted (db : DB) (s : SessionObj) : Nat × DB :=
  match db.purchases.find? (fun p => p.paymentId == some s.id) with
  | none => (404, db)
  | some purchase =>
    let purchase' : Purchase :=
      { purchase with
        amount := completedAmount s.amount_total purchase.amount
        status := "completed" }
    match db.courses.find? (fun c => c.id == purchase.courseId) with
    | none => (500, { db with purchases := replaceFirst db.purchases s.id purchase' })
    | some course =>
      let lectures' :=
        if 0 < course.lectures.length then setLecturesFree db.lectures course.lectures
        else db.lectures
      (200,
        { purchases := replaceFirst db.purchases s.id purchase'
          courses := enrollStudent db.courses course.id purchase.userId
          lectures := lectures'
          users := enrollUser db.users purchase.userId course.id })

/-- The `switch (event.type)` of `stripeWebhook`, run on an already verified
event: completed and expired sessions are handled, anything else is merely
acknowledged with 200. -/
def stripeWebhookDispatch (db : DB) (event : Event) : Nat × DB :=
  if event.type == "checkout.session.completed" then
    handleCompleted db event.data
  else if event.type == "checkout.session.expired" then
    (200, { db with purchases := deleteFirst db.purchases event.data.id })
  else
    (200, db)

/-- `stripe.webhooks.generateTestHeaderString({payload, secret})`: the
handler fabricates the signature header itself from the payload it is about
to verify, using the same signing primitive `constructEvent` checks with. -/
def generateTestHeaderString (sign : String → String → String)
    (payload secret : String) : String :=
  sign payload secret

/-- `stripe.webhooks.constructEvent(payload, header, secret)`: accept the
event parsed from the payload when the header is the payload's signature
under the secret, and throw (here: `Except.error`) otherwise, or when the
payload does not parse. -/
def constructEvent (sign : String → String → String) (decode : String → Option Event)
    (payload header secret : String) : Except String Event :=
  if header = sign payload secret then
    match decode payload with
    | some e => Except.ok e
    | none => Except.error "invalid payload"
  else
    Except.error "signature verification failed"

/-- The whole `stripeWebhook` handler: serialize the body (here the already
serialized `payloadString` is the input), self-generate the header, verify,
and dispatch; a verification failure answers 400 and changes nothing. -/
def stripeWebhook (sign : String → String → String) (decode : String → Option Event)
    (payloadString secret : String) (db : DB) : Nat × DB :=
  match constructEvent sign decode payloadString
      (generateTestHeaderString sign payloadString secret) secret with
  | Except.error _ => (400, db)
  | Except.ok event => stripeWebhookDispatch db event

/-! Read-only query handlers.  Their `try` bodies await database results; a
thrown lookup is passed in as `Except.error`, and the `catch` blocks only
`console.log`, so those paths produce no response at all (`none`). -/

/-- Response of `getCourseDetailWithPurchaseStatus` when one is sent. -/
inductive DetailResponse where
  | notFound
  | ok (course : Course) (purchased : Bool)
deriving DecidableEq

/-- `getCourseDetailWithPurchaseStatus`: fetch the course, look up whether
any purchase row exists for (userId, courseId) with no condition on its
status, answer 404 without the flag when the course is missing and
otherwise 200 with `purchased: !!purchased`. -/
def getCourseDetailWithPurchaseStatus (userId courseId : Nat) :
    Except String DB → Option DetailResponse
  | Except.error _ => none
  | Except.ok db =>
    let purchased := db.purchases.find? fun p => p.userId == userId && p.courseId == courseId
    match db.courses.find? (fun c => c.id == courseId) with
    | none => some DetailResponse.notFound
    | some course => some (DetailResponse.ok course purchased.isSome)

/-- `getAllPurchasedCourse`: every purchase with status completed.  The
source's `if (!purchasedCourse)` 404 branch is dead code — `find` returns an
array, which is always truthy — so the success path always answers 200. -/
def getAllPurchasedCourse : Except String DB → Option (Nat × List Purchase)
  | Except.error _ => none
  | Except.ok db => some (200, db.purchases.filter fun p => p.status == "completed")

/-! Concrete fixtures used by witnesses and counterexamples. -/

/-- A lecture of the fixture course, initially not freely visible. -/
def exLecture : Lecture := { id := 10, isPreviewFree := false }

/-- A fixture course priced 33.2 with one lecture and no enrolled students. -/
def exCourse : Course :=
  { id := 1, courseTitle := "Course", courseThumbnail := "thumb.png",
    coursePrice := mkRat 332 10, lectures := [10], enrolledStudents := [], creator := 7 }

/-- A fixture user enrolled in nothing. -/
def exUser : User := { id := 2, enrolledCourses := [] }

/-- A pending purchase of the fixture course by the fixture user. -/
def exPendingPurchase : Purchase :=
  { courseId := 1, userId := 2, amount := 10, status := "pending", paymentId := some "cs_1" }

/-- The fixture database. -/
def exDB : DB :=
  { purchases := [exPendingPurchase], courses := [exCourse],
    lectures := [exLecture], users := [exUser] }

/-- A completed-session event for the fixture purchase, without a total. -/
def exCompletedEvent : Event :=
  { type := "checkout.session.completed", data := { id := "cs_1", amount_total := none } }

/-- An expired-session event for the fixture purchase. -/
def exExpiredEvent : Event :=
  { type := "checkout.session.expired", data := { id := "cs_1", amount_total := none } }

/-- An event of a type the switch does not handle. -/
def exOtherEvent : Event :=
  { type := "invoice.paid", data := { id := "cs_1", amount_total := none } }

/-- A provider that returns a session with a redirect URL. -/
def exProvider : CheckoutParams → StripeSession :=
  fun _ => { id := "cs_9", url := some "https://checkout.test/session" }

/-- A provider that returns a session without a URL. -/
def exProviderNoUrl : CheckoutParams → StripeSession :=
  fun _ => { id := "cs_9", url := none }

/-- A pending purchase that will receive a zero `amount_total`. -/
def exZeroPurchase : Purchase :=
  { courseId := 1, userId := 2, amount := 5, status := "pending", paymentId := some "cs_z" }

/-- A database whose one purchase will receive a zero `amount_total`. -/
def exZeroDB : DB :=
  { purchases := [exZeroPurchase], courses := [], lectures := [], users := [] }

/-- A completed-session event reporting `amount_total: 0` (falsy in JS). -/
def exZeroEvent : Event :=
  { type := "checkout.session.completed", data := { id := "cs_z", amount_total := some 0 } }

/-- A concrete signing primitive for webhook witnesses. -/
def exSign : String → String → String := fun payload secret => payload ++ "." ++ secret

/-- A concrete payload decoder that parses to the unhandled fixture event. -/
def exDecode : String → Option Event := fun _ => some exOtherEvent

/-! Helper lemmas about the modelled Mongo operations. -/

/-- `$addToSet` always leaves the element present. -/
theorem mem_addToSet_self (l : List Nat) (x : Nat) : x ∈ addToSet l x := by
  unfold addToSet
  by_cases h : x ∈ l
  · simp [h]
  · simp [h]

/-- Adding the same element twice is the same as adding it once. -/
theorem addToSet_idem (l : List Nat) (x : Nat) :
    addToSet (addToSet l x) x = addToSet l x := by
  unfold addToSet
  by_cases h : x ∈ l <;> simp [h]

/-- A saved purchase keeping its `paymentId` is what the next lookup by that
`paymentId` finds. -/
theorem find?_replaceFirst (ps : List Purchase) (pid : String) (p p' : Purchase)
    (h : ps.find? (fun q => q.paymentId == some pid) = some p)
    (hp' : (p'.paymentId == some pid) = true) :
    (replaceFirst ps pid p').find? (fun q => q.paymentId == some pid) = some p' := by
  induction ps with
  | nil => simp [List.find?] at h
  | cons q rest ih =>
    by_cases hq : (q.paymentId == some pid) = true
    · simp [replaceFirst, hq, List.find?, hp']
    · simp only [replaceFirst, hq, if_false, Bool.false_eq_true]
      rw [List.find?_cons_of_neg _ (by simpa using hq)]
      rw [List.find?_cons_of_neg _ (by simpa using hq)] at h
      exact ih h

/-- Saving the same purchase again changes nothing. -/
theorem replaceFirst_idem (ps : List Purchase) (pid : String) (p' : Purchase)
    (hp' : (p'.paymentId == some pid) = true) :
    replaceFirst (replaceFirst ps pid p') pid p' = replaceFirst ps pid p' := by
  induction ps with
  | nil => rfl
  | cons q rest ih =>
    by_cases hq : (q.paymentId == some pid) = true
    · simp [replaceFirst, hq, hp']
    · simp [replaceFirst, hq, ih]

/-- `findOneAndDelete` with no matching document is a no-op. -/
theorem deleteFirst_of_find?_none (ps : List Purchase) (pid : String)
    (h : ps.find? (fun q => q.paymentId == some pid) = none) :
    deleteFirst ps pid = ps := by
  induction ps with
  | nil => rfl
  | cons q rest ih =>
    rw [List.find?] at h
    cases hq : (q.paymentId == some pid) with
    | true => rw [hq] at h; simp at h
    | false =>
      rw [hq] at h
      simp [deleteFirst, hq, ih h]

/-- `findOneAndDelete` removes exactly the first matching document. -/
theorem deleteFirst_split (ps : List Purchase) (pid : String) (p : Purchase)
    (h : ps.find? (fun q => q.paymentId == some pid) = some p) :
    ∃ l₁ l₂, ps = l₁ ++ p :: l₂
      ∧ (∀ q ∈ l₁, q.paymentId ≠ some pid)
      ∧ deleteFirst ps pid = l₁ ++ l₂ := by
  induction ps with
  | nil => simp [List.find?] at h
  | cons q rest ih =>
    cases hq : (q.paymentId == some pid) with
    | true =>
      have hqp : q = p := by
        rw [List.find?] at h
        rw [hq] at h
        exact Option.some_inj.mp h
      refine ⟨[], rest, by simp [hqp], by simp, by simp [deleteFirst, hq]⟩
    | false =>
      rw [List.find?_cons_of_neg _ (by simp [hq])] at h
      obtain ⟨l₁, l₂, hsplit, hnone, hdel⟩ := ih h
      refine ⟨q :: l₁, l₂, by simp [hsplit], ?_, by simp [deleteFirst, hq, hdel]⟩
      intro r hr
      rcases List.mem_cons.mp hr with hqr | hr'
      · subst hqr; simpa using hq
      · exact hnone r hr'

/-- Mapping a pointwise idempotent function twice equals mapping it once. -/
theorem map_self_idem {α : Type} (f : α → α) (hf : ∀ x, f (f x) = f x) (l : List α) :
    (l.map f).map f = l.map f := by
  induction l with
  | nil => rfl
  | cons a t ih => simp [hf a, ih]

/-- `find?` commutes with a map that does not change the predicate's verdict. -/
theorem find?_map_pred {α : Type} (f : α → α) (p : α → Bool)
    (hp : ∀ x, p (f x) = p x) (l : List α) :
    (l.map f).find? p = (l.find? p).map f := by
  induction l with
  | nil => rfl
  | cons a t ih =>
    cases ha : p a with
    | true =>
      rw [List.map_cons, List.find?_cons_of_pos _ (by rw [hp a]; exact ha),
        List.find?_cons_of_pos _ ha]
      rfl
    | false =>
      rw [List.map_cons, List.find?_cons_of_neg _ (by rw [hp a]; simp [ha]),
        List.find?_cons_of_neg _ (by simp [ha]), ih]

/-- Flipping the same lectures visible twice equals doing it once. -/
theorem setLecturesFree_idem (ls : List Lecture) (ids : List Nat) :
    setLecturesFree (setLecturesFree ls ids) ids = setLecturesFree ls ids := by
  unfold setLecturesFree
  apply map_self_idem
  intro l
  by_cases h : l.id ∈ ids <;> simp [h]

/-- `$addToSet` on the user's enrolled courses is idempotent. -/
theorem enrollUser_idem (us : List User) (uid cid : Nat) :
    enrollUser (enrollUser us uid cid) uid cid = enrollUser us uid cid := by
  unfold enrollUser
  apply map_self_idem
  intro u
  by_cases h : (u.id == uid) = true <;> simp [h, addToSet_idem]

/-- `$addToSet` on the course's enrolled students is idempotent. -/
theorem enrollStudent_idem (cs : List Course) (cid uid : Nat) :
    enrollStudent (enrollStudent cs cid uid) cid uid = enrollStudent cs cid uid := by
  unfold enrollStudent
  apply map_self_idem
  intro c
  by_cases h : (c.id == cid) = true <;> simp [h, addToSet_idem]

/-- Overwriting the amount from the same session total twice equals once. -/
theorem completedAmount_idem (amount_total : Option Int) (a : ℚ) :
    completedAmount amount_total (completedAmount amount_total a)
      = completedAmount amount_total a := by
  unfold completedAmount
  cases amount_total with
  | none => rfl
  | some t => by_cases h : t = 0 <;> simp [h]

/-- After `updateMany`, every lecture of the targeted ids is freely visible. -/
theorem setLecturesFree_mem (ls : List Lecture) (ids : List Nat) :
    ∀ l ∈ setLecturesFree ls ids, l.id ∈ ids → l.isPreviewFree = true := by
  intro l hl hid
  obtain ⟨l₀, _, rfl⟩ := List.mem_map.mp hl
  by_cases h : l₀.id ∈ ids
  · simp [h]
  · rw [if_neg h] at hid
    exact absurd hid h

/-- After the user update, the targeted user's enrolled set holds the course. -/
theorem enrollUser_mem (us : List User) (uid cid : Nat) :
    ∀ u ∈ enrollUser us uid cid, u.id = uid → cid ∈ u.enrolledCourses := by
  intro u hu hid
  obtain ⟨u₀, _, rfl⟩ := List.mem_map.mp hu
  by_cases h : (u₀.id == uid) = true
  · simp only [h, if_true]
    exact mem_addToSet_self _ _
  · simp only [h, if_false] at hid
    exact absurd (by simpa using hid) h

/-- After the course update, the targeted course's student set holds the user. -/
theorem enrollStudent_mem (cs : List Course) (cid uid : Nat) :
    ∀ c ∈ enrollStudent cs cid uid, c.id = cid → uid ∈ c.enrolledStudents := by
  intro c hc hid
  obtain ⟨c₀, _, rfl⟩ := List.mem_map.mp hc
  by_cases h : (c₀.id == cid) = true
  · simp only [h, if_true]
    exact mem_addToSet_self _ _
  · simp only [h, if_false] at hid
    exact absurd (by simpa using hid) h

/-- On a completed-session event the dispatch runs the completed case. -/
theorem dispatch_completed (db : DB) (e : Event)
    (htype : e.type = "checkout.session.completed") :
    stripeWebhookDispatch db e = handleCompleted db e.data := by
  simp [stripeWebhookDispatch, htype]

/-- On an expired-session event the dispatch deletes by the session id. -/
theorem dispatch_expired (db : DB) (e : Event)
    (htype : e.type = "checkout.session.expired") :
    stripeWebhookDispatch db e
      = (200, { db with purchases := deleteFirst db.purchases e.data.id }) := by
  simp [stripeWebhookDispatch, htype]

/-- Whether or not the purchase's course exists, the completed case writes
the found purchase back with overwritten amount and status. -/
theorem handleCompleted_purchases (db : DB) (s : SessionObj) (p : Purchase)
    (hp : db.purchases.find? (fun q => q.paymentId == some s.id) = some p) :
    (handleCompleted db s).2.purchases
      = replaceFirst db.purchases s.id
          { p with amount := completedAmount s.amount_total p.amount
                   status := "completed" } := by
  unfold handleCompleted
  rw [hp]
  cases hc : db.courses.find? (fun c => c.id == p.courseId) <;> simp [hc]

/-! The claims. -/

/-- C1: for every positive course price, the minor-unit amount passed to the
provider as `unit_amount` equals `round((price / 3.32) * 100)`; in
particular a price of 33.2 yields exactly 1000. -/
theorem claim_c1_unit_amount (course : Course) (courseId userId : Nat)
    (hpos : 0 < course.coursePrice) :
    (sessionParams course courseId userId).unit_amount
      = ((round ((course.coursePrice / (332 / 100)) * 100) : ℤ) : ℚ)
    ∧ (course.coursePrice = 332 / 10 →
        (sessionParams course courseId userId).unit_amount = 1000) := by
  constructor
  · show convertedPrice course.coursePrice = _
    unfold convertedPrice toFixed2
    rw [div_mul_cancel₀ _ (by norm_num : (100 : ℚ) ≠ 0)]
  · intro h
    show convertedPrice course.coursePrice = 1000
    unfold convertedPrice toFixed2
    rw [h]
    norm_num [round_eq]

/-- Witness for C1 at the fixture course priced 33.2. -/
theorem claim_c1_unit_amount_witness :
    0 < exCourse.coursePrice
    ∧ ((sessionParams exCourse 1 2).unit_amount
        = ((round ((exCourse.coursePrice / (332 / 100)) * 100) : ℤ) : ℚ)
      ∧ (exCourse.coursePrice = 332 / 10 →
          (sessionParams exCourse 1 2).unit_amount = 1000)) :=
  ⟨by decide, claim_c1_unit_amount exCourse 1 2 (by decide)⟩

/-- C4: with the course found, the handler persists a purchase only when the
provider session carries a URL; the persisted record is pending with amount
equal to the course price and `paymentId` equal to the provider session id,
and a missing URL yields a 400 with the purchase store untouched. -/
theorem claim_c4_checkout_persistence (db : DB) (userId courseId : Nat)
    (provider : CheckoutParams → StripeSession) (course : Course)
    (hc : db.courses.find? (fun c => c.id == courseId) = some course) :
    ((provider (sessionParams course courseId userId)).url = none →
      createCheckoutSession db userId courseId provider = (400, none, db.purchases))
    ∧ (∀ url, (provider (sessionParams course courseId userId)).url = some url →
      createCheckoutSession db userId courseId provider
        = (200, some url, db.purchases ++
            [{ courseId := courseId, userId := userId,
               amount := course.coursePrice, status := "pending",
               paymentId := some (provider (sessionParams course courseId userId)).id }])) := by
  constructor
  · intro h
    simp [createCheckoutSession, hc, h]
  · intro url h
    simp [createCheckoutSession, hc, h]

/-- Witness for C4 on the fixture database, under both a provider returning
a URL and one returning none. -/
theorem claim_c4_checkout_persistence_witness :
    (exDB.courses.find? (fun c => c.id == 1) = some exCourse)
    ∧ (((exProviderNoUrl (sessionParams exCourse 1 2)).url = none →
        createCheckoutSession exDB 2 1 exProviderNoUrl = (400, none, exDB.purchases))
      ∧ (∀ url, (exProviderNoUrl (sessionParams exCourse 1 2)).url = some url →
        createCheckoutSession exDB 2 1 exProviderNoUrl
          = (200, some url, exDB.purchases ++
              [{ courseId := 1, userId := 2,
                 amount := exCourse.coursePrice, status := "pending",
                 paymentId := some (exProviderNoUrl (sessionParams exCourse 1 2)).id }]))) :=
  ⟨by decide, claim_c4_checkout_persistence exDB 2 1 exProviderNoUrl exCourse (by decide)⟩

/-- C8: an event of any unhandled type leaves every record unchanged and is
answered 200. -/
theorem claim_c8_unhandled_frame (db : DB) (e : Event)
    (h1 : e.type ≠ "checkout.session.completed")
    (h2 : e.type ≠ "checkout.session.expired") :
    stripeWebhookDispatch db e = (200, db) := by
  simp [stripeWebhookDispatch, h1, h2]

/-- Witness for C8 on the fixture database and an `invoice.paid` event. -/
theorem claim_c8_unhandled_frame_witness :
    exOtherEvent.type ≠ "checkout.session.completed"
    ∧ exOtherEvent.type ≠ "checkout.session.expired"
    ∧ stripeWebhookDispatch exDB exOtherEvent = (200, exDB) :=
  ⟨by decide, by decide,
    claim_c8_unhandled_frame exDB exOtherEvent (by decide) (by decide)⟩

/-- C9: when the awaited lookups of either read-only query handler throw,
the catch block only logs, so no response at all is produced. -/
theorem claim_c9_errors_swallowed (userId courseId : Nat) (msg : String) :
    getCourseDetailWithPurchaseStatus userId courseId (Except.error msg) = none
    ∧ getAllPurchasedCourse (Except.error msg) = none :=
  ⟨rfl, rfl⟩

/-- C10: the webhook handler signs the request body itself with the
configured secret, so whichever signing primitive Stripe uses, verification
of a decodable body always succeeds and the 400 branch is never taken: the
handler behaves exactly as the dispatch on the decoded event. -/
theorem claim_c10_verification_vacuous (sign : String → String → String)
    (decode : String → Option Event) (body secret : String) (db : DB) (e : Event)
    (hdec : decode body = some e) :
    stripeWebhook sign decode body secret db = stripeWebhookDispatch db e := by
  simp [stripeWebhook, constructEvent, generateTestHeaderString, hdec]

/-- Witness for C10 with a concrete signing function and decoder. -/
theorem claim_c10_verification_vacuous_witness :
    exDecode "payload" = some exOtherEvent
    ∧ stripeWebhook exSign exDecode "payload" "whsec" exDB
        = stripeWebhookDispatch exDB exOtherEvent :=
  ⟨by decide,
    claim_c10_verification_vacuous exSign exDecode "payload" "whsec" exDB exOtherEvent
      (by decide)⟩

/-- C5: an expired-session event answers 200, is a no-op on the purchase
store when no purchase matches the session id, and deletes exactly the
matching pending purchase when one does. -/
theorem claim_c5_expired (db : DB) (e : Event)
    (htype : e.type = "checkout.session.expired") :
    (stripeWebhookDispatch db e).1 = 200
    ∧ (db.purchases.find? (fun q => q.paymentId == some e.data.id) = none →
        (stripeWebhookDispatch db e).2 = db)
    ∧ (∀ p, db.purchases.find? (fun q => q.paymentId == some e.data.id) = some p →
        p.status = "pending" →
        ∃ l₁ l₂, db.purchases = l₁ ++ p :: l₂
          ∧ (∀ q ∈ l₁, q.paymentId ≠ some e.data.id)
          ∧ (stripeWebhookDispatch db e).2.purchases = l₁ ++ l₂) := by
  rw [dispatch_expired db e htype]
  refine ⟨rfl, ?_, ?_⟩
  · intro h
    simp [deleteFirst_of_find?_none db.purchases e.data.id h]
  · intro p hp _
    obtain ⟨l₁, l₂, hsplit, hnone, hdel⟩ := deleteFirst_split db.purchases e.data.id p hp
    exact ⟨l₁, l₂, hsplit, hnone, hdel⟩

/-- C2: a completed-session event matching an existing pending purchase
marks that purchase completed, makes every lecture of the associated course
freely visible, adds the course to the user's enrolled set and the user to
the course's enrolled-students set. -/
theorem claim_c2_completion_updates (db : DB) (e : Event) (p : Purchase) (c : Course)
    (htype : e.type = "checkout.session.completed")
    (hp : db.purchases.find? (fun q => q.paymentId == some e.data.id) = some p)
    (hpend : p.status = "pending")
    (hc : db.courses.find? (fun x => x.id == p.courseId) = some c) :
    ((stripeWebhookDispatch db e).2.purchases.find?
        (fun q => q.paymentId == some e.data.id)).map Purchase.status
      = some "completed"
    ∧ (∀ l ∈ (stripeWebhookDispatch db e).2.lectures,
        l.id ∈ c.lectures → l.isPreviewFree = true)
    ∧ (∀ u ∈ (stripeWebhookDispatch db e).2.users,
        u.id = p.userId → p.courseId ∈ u.enrolledCourses)
    ∧ (∀ x ∈ (stripeWebhookDispatch db e).2.courses,
        x.id = p.courseId → p.userId ∈ x.enrolledStudents) := by
  have hpid : (p.paymentId == some e.data.id) = true := by
    have h := List.find?_some hp
    exact h
  have hcid : c.id = p.courseId := by
    have := List.find?_some hc
    simpa using this
  have hrun : handleCompleted db e.data
      = (200,
        { purchases := replaceFirst db.purchases e.data.id
            { p with amount := completedAmount e.data.amount_total p.amount
                     status := "completed" }
          courses := enrollStudent db.courses c.id p.userId
          lectures := if 0 < c.lectures.length
              then setLecturesFree db.lectures c.lectures else db.lectures
          users := enrollUser db.users p.userId c.id }) := by
    simp only [handleCompleted, hp, hc]
  rw [dispatch_completed db e htype, hrun]
  refine ⟨?_, ?_, ?_, ?_⟩
  · show Option.map Purchase.status
        ((replaceFirst db.purchases e.data.id
          { p with amount := completedAmount e.data.amount_total p.amount
                   status := "completed" }).find?
          (fun q => q.paymentId == some e.data.id))
      = some "completed"
    rw [find?_replaceFirst db.purchases e.data.id p
      { p with amount := completedAmount e.data.amount_total p.amount
               status := "completed" } hp (by exact hpid)]
    rfl
  · show ∀ l ∈ (if 0 < c.lectures.length
        then setLecturesFree db.lectures c.lectures else db.lectures),
      l.id ∈ c.lectures → l.isPreviewFree = true
    by_cases hlen : 0 < c.lectures.length
    · rw [if_pos hlen]
      exact setLecturesFree_mem db.lectures c.lectures
    · rw [if_neg hlen]
      intro l _ hid
      have hnil : c.lectures = [] := List.length_eq_zero.mp (by omega)
      rw [hnil] at hid
      simp at hid
  · show ∀ u ∈ enrollUser db.users p.userId c.id,
        u.id = p.userId → p.courseId ∈ u.enrolledCourses
    intro u hu hid
    have := enrollUser_mem db.users p.userId c.id u hu hid
    rwa [hcid] at this
  · show ∀ x ∈ enrollStudent db.courses c.id p.userId,
        x.id = p.courseId → p.userId ∈ x.enrolledStudents
    intro x hx hid
    exact enrollStudent_mem db.courses c.id p.userId x hx (by rw [hid, ← hcid])

/-- Witness for C2 on the fixture database. -/
theorem claim_c2_completion_updates_witness :
    exCompletedEvent.type = "checkout.session.completed"
    ∧ exDB.purchases.find?
        (fun q => q.paymentId == some exCompletedEvent.data.id) = some exPendingPurchase
    ∧ exPendingPurchase.status = "pending"
    ∧ exDB.courses.find? (fun x => x.id == exPendingPurchase.courseId) = some exCourse
    ∧ (((stripeWebhookDispatch exDB exCompletedEvent).2.purchases.find?
          (fun q => q.paymentId == some exCompletedEvent.data.id)).map Purchase.status
        = some "completed"
      ∧ (∀ l ∈ (stripeWebhookDispatch exDB exCompletedEvent).2.lectures,
          l.id ∈ exCourse.lectures → l.isPreviewFree = true)
      ∧ (∀ u ∈ (stripeWebhookDispatch exDB exCompletedEvent).2.users,
          u.id = exPendingPurchase.userId →
            exPendingPurchase.courseId ∈ u.enrolledCourses)
      ∧ (∀ x ∈ (stripeWebhookDispatch exDB exCompletedEvent).2.courses,
          x.id = exPendingPurchase.courseId →
            exPendingPurchase.userId ∈ x.enrolledStudents)) :=
  ⟨by decide, by decide, by decide, by decide,
    claim_c2_completion_updates exDB exCompletedEvent exPendingPurchase exCourse
      (by decide) (by decide) (by decide) (by decide)⟩

/-- C3 as amended: a non-zero reported total overwrites the purchase amount
with total/100; a zero or absent total (falsy in JS) leaves the stored
amount unchanged. -/
theorem claim_c3_amount_update (db : DB) (e : Event) (p : Purchase)
    (htype : e.type = "checkout.session.completed")
    (hp : db.purchases.find? (fun q => q.paymentId == some e.data.id) = some p) :
    (∀ t : Int, e.data.amount_total = some t → t ≠ 0 →
      ((stripeWebhookDispatch db e).2.purchases.find?
          (fun q => q.paymentId == some e.data.id)).map Purchase.amount
        = some ((t : ℚ) / 100))
    ∧ ((e.data.amount_total = none ∨ e.data.amount_total = some 0) →
      ((stripeWebhookDispatch db e).2.purchases.find?
          (fun q => q.paymentId == some e.data.id)).map Purchase.amount
        = some p.amount) := by
  have hpid : (p.paymentId == some e.data.id) = true := by
    have h := List.find?_some hp
    exact h
  have hfind : (stripeWebhookDispatch db e).2.purchases.find?
        (fun q => q.paymentId == some e.data.id)
      = some { p with amount := completedAmount e.data.amount_total p.amount
                      status := "completed" } := by
    rw [dispatch_completed db e htype, handleCompleted_purchases db e.data p hp]
    exact find?_replaceFirst db.purchases e.data.id p _ hp hpid
  constructor
  · intro t ht hnz
    rw [hfind]
    simp [completedAmount, ht, hnz]
  · rintro (ht | ht) <;> rw [hfind] <;> simp [completedAmount, ht]

/-- Witness for C3 as amended, on a fixture event reporting a zero total. -/
theorem claim_c3_amount_update_witness :
    exZeroEvent.type = "checkout.session.completed"
    ∧ exZeroDB.purchases.find?
        (fun q => q.paymentId == some exZeroEvent.data.id) = some exZeroPurchase
    ∧ ((∀ t : Int, exZeroEvent.data.amount_total = some t → t ≠ 0 →
        ((stripeWebhookDispatch exZeroDB exZeroEvent).2.purchases.find?
            (fun q => q.paymentId == some exZeroEvent.data.id)).map Purchase.amount
          = some ((t : ℚ) / 100))
      ∧ ((exZeroEvent.data.amount_total = none
            ∨ exZeroEvent.data.amount_total = some 0) →
        ((stripeWebhookDispatch exZeroDB exZeroEvent).2.purchases.find?
            (fun q => q.paymentId == some exZeroEvent.data.id)).map Purchase.amount
          = some exZeroPurchase.amount)) :=
  ⟨by decide, by decide,
    claim_c3_amount_update exZeroDB exZeroEvent exZeroPurchase (by decide) (by decide)⟩

/-- C3 as stated is false: on a completed event whose reported total is 0,
the code leaves the matched purchase's amount at its stored value 5 instead
of setting it to 0/100. -/
theorem claim_c3_counterexample :
    ¬ (((stripeWebhookDispatch exZeroDB exZeroEvent).2.purchases.find?
        (fun q => q.paymentId == some exZeroEvent.data.id)).map Purchase.amount
      = some (((0 : Int) : ℚ) / 100)) := by
  have h : ((stripeWebhookDispatch exZeroDB exZeroEvent).2.purchases.find?
      (fun q => q.paymentId == some exZeroEvent.data.id)).map Purchase.amount
      = some (5 : ℚ) := by decide
  rw [h]
  simp only [Option.some.injEq]
  norm_num

/-- C6: with the course present, the detail query answers purchased = true
exactly when some purchase row exists for the (user, course) pair, with no
condition on that row's status. -/
theorem claim_c6_purchased_iff (db : DB) (userId courseId : Nat) (c : Course)
    (hc : db.courses.find? (fun x => x.id == courseId) = some c) :
    getCourseDetailWithPurchaseStatus userId courseId (Except.ok db)
        = some (DetailResponse.ok c true)
    ↔ ∃ p ∈ db.purchases, p.userId = userId ∧ p.courseId = courseId := by
  simp only [getCourseDetailWithPurchaseStatus]
  rw [hc]
  show some (DetailResponse.ok c
      (db.purchases.find? fun p => p.userId == userId && p.courseId == courseId).isSome)
    = some (DetailResponse.ok c true) ↔ _
  constructor
  · intro h
    have h' := Option.some_inj.mp h
    injection h' with h1 h2
    obtain ⟨q, hmem, hq⟩ := List.find?_isSome.mp h2
    simp only [Bool.and_eq_true, beq_iff_eq] at hq
    exact ⟨q, hmem, hq.1, hq.2⟩
  · rintro ⟨q, hmem, h1, h2⟩
    have hsome : (db.purchases.find?
        fun p => p.userId == userId && p.courseId == courseId).isSome = true :=
      List.find?_isSome.mpr ⟨q, hmem, by simp [h1, h2]⟩
    rw [hsome]

/-- Witness for C6 on the fixture database, whose one purchase row for the
pair is pending. -/
theorem claim_c6_purchased_iff_witness :
    exDB.courses.find? (fun x => x.id == 1) = some exCourse
    ∧ (getCourseDetailWithPurchaseStatus 2 1 (Except.ok exDB)
          = some (DetailResponse.ok exCourse true)
      ↔ ∃ p ∈ exDB.purchases, p.userId = 2 ∧ p.courseId = 1) :=
  ⟨by decide, claim_c6_purchased_iff exDB 2 1 exCourse (by decide)⟩

/-- Running the completed-session case twice from any state gives the state
and response of running it once. -/
theorem handleCompleted_idem (db : DB) (s : SessionObj) :
    handleCompleted (handleCompleted db s).2 s = handleCompleted db s := by
  cases hp : db.purchases.find? (fun q => q.paymentId == some s.id) with
  | none =>
    have h1 : handleCompleted db s = (404, db) := by
      simp only [handleCompleted, hp]
    rw [h1]
    exact h1
  | some p =>
    have hpid : (p.paymentId == some s.id) = true := by
      have h := List.find?_some hp
      exact h
    have hfix : Purchase.mk p.courseId p.userId
        (completedAmount s.amount_total (completedAmount s.amount_total p.amount))
        "completed" p.paymentId
        = { p with amount := completedAmount s.amount_total p.amount
                   status := "completed" } := by
      rw [completedAmount_idem]
    have hp2 : (replaceFirst db.purchases s.id
        { p with amount := completedAmount s.amount_total p.amount
                 status := "completed" }).find? (fun q => q.paymentId == some s.id)
        = some { p with amount := completedAmount s.amount_total p.amount
                        status := "completed" } :=
      find?_replaceFirst db.purchases s.id p
        { p with amount := completedAmount s.amount_total p.amount
                 status := "completed" } hp (by exact hpid)
    cases hc : db.courses.find? (fun x => x.id == p.courseId) with
    | none =>
      have h1 : handleCompleted db s
          = (500,
              { db with
                purchases :=
                  replaceFirst db.purchases s.id
                    { p with
                      amount := completedAmount s.amount_total p.amount
                      status := "completed" } }) := by
        simp only [handleCompleted, hp, hc]
      rw [h1]
      simp only [handleCompleted, hp2, hc]
      rw [hfix, replaceFirst_idem db.purchases s.id _ (by exact hpid)]
    | some c =>
      have hc2 : (enrollStudent db.courses c.id p.userId).find? (fun x => x.id == p.courseId)
          = some { c with enrolledStudents := addToSet c.enrolledStudents p.userId } := by
        unfold enrollStudent
        rw [find?_map_pred _ _ ?hpred, hc]
        · simp
        case hpred =>
          intro x
          by_cases hx : (x.id == c.id) = true <;> simp [hx]
      have h1 : handleCompleted db s
          = (200,
            { purchases := replaceFirst db.purchases s.id
                { p with amount := completedAmount s.amount_total p.amount
                         status := "completed" }
              courses := enrollStudent db.courses c.id p.userId
              lectures := if 0 < c.lectures.length
                  then setLecturesFree db.lectures c.lectures else db.lectures
              users := enrollUser db.users p.userId c.id }) := by
        simp only [handleCompleted, hp, hc]
      rw [h1]
      simp only [handleCompleted, hp2, hc2]
      rw [hfix, replaceFirst_idem db.purchases s.id _ (by exact hpid),
        enrollStudent_idem, enrollUser_idem]
      by_cases hlen : 0 < c.lectures.length
      · simp [hlen, setLecturesFree_idem]
      · simp [hlen]

/-- C7: processing the same completed-session event twice yields exactly the
state (and response) of processing it once: the enrollment sets stay as
after the first run with no duplicates added and the status stays
completed. -/
theorem claim_c7_idempotent (db : DB) (e : Event)
    (htype : e.type = "checkout.session.completed") :
    stripeWebhookDispatch (stripeWebhookDispatch db e).2 e = stripeWebhookDispatch db e := by
  rw [dispatch_completed db e htype, dispatch_completed _ e htype]
  exact handleCompleted_idem db e.data

/-- Witness for C7 on the fixture database and completed event. -/
theorem claim_c7_idempotent_witness :
    exCompletedEvent.type = "checkout.session.completed"
    ∧ stripeWebhookDispatch (stripeWebhookDispatch exDB exCompletedEvent).2 exCompletedEvent
        = stripeWebhookDispatch exDB exCompletedEvent :=
  ⟨by decide, claim_c7_idempotent exDB exCompletedEvent (by decide)⟩

/-- Witness for C5 on the fixture database holding one matching pending
purchase. -/
theorem claim_c5_expired_witness :
    exExpiredEvent.type = "checkout.session.expired"
    ∧ ((stripeWebhookDispatch exDB exExpiredEvent).1 = 200
      ∧ (exDB.purchases.find?
            (fun q => q.paymentId == some exExpiredEvent.data.id) = none →
          (stripeWebhookDispatch exDB exExpiredEvent).2 = exDB)
      ∧ (∀ p, exDB.purchases.find?
            (fun q => q.paymentId == some exExpiredEvent.data.id) = some p →
          p.status = "pending" →
          ∃ l₁ l₂, exDB.purchases = l₁ ++ p :: l₂
            ∧ (∀ q ∈ l₁, q.paymentId ≠ some exExpiredEvent.data.id)
            ∧ (stripeWebhookDispatch exDB exExpiredEvent).2.purchases = l₁ ++ l₂)) :=
  ⟨by decide, claim_c5_expired exDB exExpiredEvent (by decide)⟩
